import Mathlib

/-!
Verification development for the Bosch Indego mower integration
(`custom_components/indego/__init__.py`).

The Python module is shallowly embedded below: pure helper functions become
Lean functions over a small model `PyVal` of the Python values they receive;
the stateful `IndegoHub` coroutine methods become pure functions over an
explicit `Hub` state, taking the results of the external API client's calls
as an `Env` record and returning the new state together with a trace of the
client calls and scheduling actions they perform.  Identifiers declared in
files of the repository that are not part of `src` (the `const.py` entity
key constants, the sensor constructors and the service framework) are
modelled from the spec and marked as such in their doc comments.
-/

namespace Indego

/-- Model of the Python values the helper functions receive: integers,
strings, booleans, `None`, and opaque timestamps (from `utcnow()`). -/
inductive PyVal where
  | int (n : Int)
  | str (s : String)
  | bool (b : Bool)
  | none
  | time (t : Nat)
deriving DecidableEq, Repr

/-- Python truthiness: `0`, `""`, `False` and `None` are falsy; every other
value of our model (including any timestamp) is truthy. -/
def truthy : PyVal → Bool
  | .int n => n != 0
  | .str s => s != ""
  | .bool b => b
  | .none => false
  | .time _ => true

/-- Strip leading and trailing spaces from a character list, as Python's
`int()` ignores surrounding whitespace. -/
def stripSpaces (l : List Char) : List Char :=
  ((l.dropWhile (fun c => c = ' ')).reverse.dropWhile (fun c => c = ' ')).reverse

/-- A non-empty all-digit character list to `Nat`, for the model of Python
`int()` on strings. -/
def digitsToNat (l : List Char) : Option Nat :=
  if l = [] then Option.none
  else if l.all Char.isDigit then
    Option.some (l.foldl (fun acc c => acc * 10 + (c.toNat - 48)) 0)
  else Option.none

/-- Parse an optionally signed decimal character list. -/
def parseSignedInt : List Char → Option Int
  | '-' :: rest => (digitsToNat rest).map (fun n => -(n : Int))
  | '+' :: rest => (digitsToNat rest).map (fun n => (n : Int))
  | l => (digitsToNat l).map (fun n => (n : Int))

/-- Model of Python `int(state)`: parses a trimmed decimal string with an
optional sign, converts booleans to 0/1, keeps integers; everything else
(including `None` and non-numeric strings such as `"on"`) raises, which we
model as `Option.none`. -/
def pyToInt : PyVal → Option Int
  | .int n => Option.some n
  | .bool b => Option.some (if b then 1 else 0)
  | .str s => parseSignedInt (stripSpaces s.data)
  | .none => Option.none
  | .time _ => Option.none

/-- Python `state == s` for a string literal `s`: only a string compares
equal to a string (ints, booleans, `None` and timestamps never do). -/
def pyEqStr (v : PyVal) (s : String) : Bool :=
  match v with
  | .str t => t == s
  | _ => false

/-- The home-automation framework constant `STATE_UNKNOWN`. -/
def STATE_UNKNOWN : String := "unknown"

/-- The home-automation framework constant `STATE_ON`. -/
def STATE_ON : String := "on"

/-- Embedding of `FUNC_ICON_BATTERY` (lines 93-101): truthy non-"unknown"
state is converted with `int()` (a conversion failure raises, modelled as
`Except.error`), then 0 / 100 / `state - state % 10` pick the icon; a falsy
state or the literal "unknown" yields the half-battery icon. -/
def FUNC_ICON_BATTERY (state : PyVal) : Except Unit String :=
  if truthy state && !(pyEqStr state STATE_UNKNOWN) then
    match pyToInt state with
    | Option.none => .error ()
    | Option.some n =>
      if n = 0 then .ok "mdi:battery-outline"
      else if n = 100 then .ok "mdi:battery"
      else .ok ("mdi:battery-" ++ toString (n - n % 10))
  else .ok "mdi:battery-50"

/-- Embedding of `FUNC_ICON_MOWER_ALERT` (lines 104-108): for a truthy state
Python evaluates `int(state)` first, so a truthy state that does not parse as
an integer raises (modelled as `Except.error`) before `state == STATE_ON` is
ever compared; otherwise the alert icon is returned when the parsed value is
positive or the state equals `STATE_ON`. -/
def FUNC_ICON_MOWER_ALERT (state : PyVal) : Except Unit String :=
  if truthy state then
    match pyToInt state with
    | Option.none => .error ()
    | Option.some n =>
      if 0 < n ∨ pyEqStr state STATE_ON = true then .ok "mdi:alert-outline"
      else .ok "mdi:check-circle-outline"
  else .ok "mdi:check-circle-outline"

/-- The framework constant `TEMP_CELSIUS`, used in attribute key names. -/
def TEMP_CELSIUS : String := "°C"

/-- An entity's runtime data: its displayed state and its mapping of
auxiliary attributes (kept as an association list). -/
structure Entity where
  state : PyVal
  attrs : List (String × PyVal)
deriving DecidableEq, Repr

/-- An entity with no state set and no attributes, the initial shape of a
freshly created entity. -/
def Entity.init : Entity := ⟨PyVal.none, []⟩

/-- Modelled from the spec: the sensor platform's `add_attribute` (in
`sensor.py` / `binary_sensor.py`, not under `src`) merges the given
key-value pairs into the entity's attribute mapping, overwriting existing
keys.  `setAttr` performs one such insertion. -/
def setAttr (attrs : List (String × PyVal)) (k : String) (v : PyVal) :
    List (String × PyVal) :=
  if attrs.any (fun p => p.1 = k) then
    attrs.map (fun p => if p.1 = k then (k, v) else p)
  else attrs ++ [(k, v)]

/-- Merge a dictionary of new attributes into an attribute mapping, one
insertion per pair, in order. -/
def addAttribute (attrs new : List (String × PyVal)) : List (String × PyVal) :=
  new.foldl (fun a p => setAttr a p.1 p.2) attrs

/-- The Hub's fixed table of entity state-holders, one field per key of
`entity_definitions`. -/
structure Entities where
  online : Entity
  updateAvailable : Entity
  alert : Entity
  mowerState : Entity
  mowerStateDetail : Entity
  battery : Entity
  lawnMowed : Entity
  lastCompleted : Entity
  nextMow : Entity
  mowingMode : Entity
  runtime : Entity
  mowerAlert : Entity
deriving DecidableEq, Repr

/-- All entities in their initial shape. -/
def Entities.init : Entities :=
  ⟨Entity.init, Entity.init, Entity.init, Entity.init, Entity.init,
   Entity.init, Entity.init, Entity.init, Entity.init, Entity.init,
   Entity.init, Entity.init⟩

/-- The mutable fields of `IndegoHub` that the refresh and shutdown logic
touches: the entity table, the `_shutdown` flag, and whether a state-refresh
task handle and the two timer removers currently exist. -/
structure Hub where
  entities : Entities
  shutdown : Bool
  refreshStateTask : Bool
  refresh5mRemover : Bool
  refresh60mRemover : Bool
deriving DecidableEq, Repr

/-- A Hub as built by `__init__`: no shutdown, no task, no removers. -/
def Hub.init : Hub := ⟨Entities.init, false, false, false, false⟩

/-- The fields of the `IndegoAsyncClient` that `_update_state` and
`_update_operating_data` read after their awaits return: the long-poll
state object, the `_online` flag and the operating data.  Opaque values the
code merely copies into entities are kept as `PyVal`; `stateNum` and
`online` are typed because they steer control flow. -/
structure Env where
  stateNum : Int
  online : Bool
  stateDescription : String
  stateDescriptionDetail : String
  mowed : PyVal
  sessionOperate : PyVal
  sessionCut : PyVal
  sessionCharge : PyVal
  totalOperate : PyVal
  totalCut : PyVal
  totalCharge : PyVal
  batteryPercent : PyVal
  voltage : PyVal
  discharge : PyVal
  cycles : PyVal
  batteryTemp : PyVal
  ambientTemp : PyVal
  now : Nat
deriving DecidableEq, Repr

/-- The calls the Hub makes on the `IndegoAsyncClient`. -/
inductive ClientCall where
  | updateStateCall (longpoll : Bool) (longpollTimeout : Nat)
  | updateOperatingDataCall
  | putCommand (cmd : String)
  | putMowMode (mode : String)
  | updateGenericDataCall
deriving DecidableEq, Repr

/-- Embedding of `IndegoHub._update_state` (lines 455-490).  The coroutine
first awaits `update_state(longpoll=True, longpoll_timeout=300)` — during
that await the shutdown signal may arrive, which the boolean
`shutdownDuringAwait` models — then returns immediately when `_shutdown` is
set, and otherwise writes the four state fields and the attribute merges.
Returns the new hub together with the client calls made. -/
def updateStateMethod (env : Env) (shutdownDuringAwait : Bool) (h : Hub) :
    Hub × List ClientCall :=
  let calls := [ClientCall.updateStateCall true 300]
  let h := { h with shutdown := h.shutdown || shutdownDuringAwait }
  if h.shutdown then (h, calls)
  else
    let e := h.entities
    let mowerState :=
      { e.mowerState with
        state := PyVal.str env.stateDescription,
        attrs := addAttribute e.mowerState.attrs
          [("last_updated", PyVal.time env.now)] }
    let mowerStateDetail :=
      { e.mowerStateDetail with
        state := PyVal.str env.stateDescriptionDetail,
        attrs := addAttribute e.mowerStateDetail.attrs
          [("last_updated", PyVal.time env.now),
           ("state_number", PyVal.int env.stateNum),
           ("state_description", PyVal.str env.stateDescriptionDetail)] }
    let lawnMowed :=
      { e.lawnMowed with
        state := env.mowed,
        attrs := addAttribute e.lawnMowed.attrs
          [("last_updated", PyVal.time env.now),
           ("last_session_operation_min", env.sessionOperate),
           ("last_session_cut_min", env.sessionCut),
           ("last_session_charge_min", env.sessionCharge)] }
    let runtime :=
      { e.runtime with
        state := env.totalOperate,
        attrs := addAttribute e.runtime.attrs
          [("total_operation_time_h", env.totalOperate),
           ("total_mowing_time_h", env.totalCut),
           ("total_charging_time_h", env.totalCharge)] }
    ({ h with entities :=
        { e with mowerState := mowerState, mowerStateDetail := mowerStateDetail,
                 lawnMowed := lawnMowed, runtime := runtime } }, calls)

/-- Embedding of `IndegoHub._update_operating_data` (lines 435-453): awaits
`update_operating_data()` and then unconditionally writes the online and
battery entities from the client's fields. -/
def updateOperatingDataMethod (env : Env) (h : Hub) : Hub :=
  let e := h.entities
  let online := { e.online with state := PyVal.bool env.online }
  let battery :=
    { e.battery with
      state := env.batteryPercent,
      attrs := addAttribute e.battery.attrs
        [("last_updated", PyVal.time env.now),
         ("voltage_V", env.voltage),
         ("discharge_Ah", env.discharge),
         ("cycles", env.cycles),
         ("battery_temp_" ++ TEMP_CELSIUS, env.batteryTemp),
         ("ambient_temp_" ++ TEMP_CELSIUS, env.ambientTemp)] }
  { h with entities := { e with online := online, battery := battery } }

/-- The guard of line 395: operating data is refreshed when the state
number lies in [500, 799], equals 257 or 266, or the client reports the
mower online. -/
def operatingDataCond (env : Env) : Prop :=
  (500 ≤ env.stateNum ∧ env.stateNum ≤ 799) ∨ env.stateNum = 257 ∨
    env.stateNum = 266 ∨ env.online = true

instance (env : Env) : Decidable (operatingDataCond env) := by
  unfold operatingDataCond; infer_instance

/-- Result of one iteration of `async_refresh_state`: the hub after the
iteration, the client calls it made, and whether it re-created itself as a
new task (line 397, immediate — no timer delay). -/
structure RefreshStateResult where
  hub : Hub
  calls : List ClientCall
  rescheduled : Bool
deriving Repr

/-- Embedding of one iteration of `IndegoHub.async_refresh_state`
(lines 388-399): update the state, stop if `_shutdown` is set (line 392),
refresh the operating data when `operatingDataCond` holds, and re-create
the task (line 397).  The iteration has two awaits at which the shutdown
signal can arrive: during `_update_state` (`sdDuringState`, checked at
lines 392/458) and, when the guard holds, during `_update_operating_data`
at line 396 (`sdDuringOpData`) — after that second await no further check
happens, so line 397 re-creates the task even though the flag is set. -/
def asyncRefreshState (env : Env) (sdDuringState sdDuringOpData : Bool)
    (h : Hub) : RefreshStateResult :=
  let p := updateStateMethod env sdDuringState h
  if p.1.shutdown then ⟨p.1, p.2, false⟩
  else if operatingDataCond env then
    ⟨{ updateOperatingDataMethod env
        { p.1 with shutdown := p.1.shutdown || sdDuringOpData } with
        refreshStateTask := true },
      p.2 ++ [ClientCall.updateOperatingDataCall], true⟩
  else ⟨{ p.1 with refreshStateTask := true }, p.2, true⟩

/-- The externally visible effects of `async_shutdown`: whether the
state-refresh task was cancelled, whether each timer remover was invoked,
whether the API client was closed, and whether the coroutine itself exited
by re-raising the awaited task's cancellation or stored exception. -/
structure ShutdownEffects where
  taskCancelled : Bool
  remover5mCalled : Bool
  remover60mCalled : Bool
  clientClosed : Bool
  raised : Bool
deriving DecidableEq, Repr

/-- Embedding of `IndegoHub.async_shutdown` (lines 376-386): set the
`_shutdown` flag; when a state-refresh task exists, cancel it and then
`await` it bare (line 381) — if that await re-raises the task's
cancellation or stored exception (`taskAwaitRaises`), the coroutine exits
there and neither remover is invoked nor the client closed; otherwise the
two removers are invoked if present and the client is closed. -/
def asyncShutdown (taskAwaitRaises : Bool) (h : Hub) : Hub × ShutdownEffects :=
  let h1 := { h with shutdown := true }
  if h.refreshStateTask then
    if taskAwaitRaises then
      (h1, ⟨true, false, false, false, true⟩)
    else
      (h1, ⟨true, h.refresh5mRemover, h.refresh60mRemover, true, false⟩)
  else
    (h1, ⟨false, h.refresh5mRemover, h.refresh60mRemover, true, false⟩)

/-- The exception classes that can come out of the awaited client calls
(all subclasses of Python's `Exception`, hence caught by the handlers in
`refresh_5m`). -/
inductive ApiError where
  | serverTimeoutError
  | tooManyRedirects
  | clientResponseError
  | otherError
deriving DecidableEq, Repr

/-- Whether a gathered result is one of the two timeout-like errors that
`refresh_5m` maps to a backoff (line 419). -/
def isTimeoutResult : Option ApiError → Bool
  | Option.some .serverTimeoutError => true
  | Option.some .tooManyRedirects => true
  | _ => false

/-- The `for res in results` loop of `refresh_5m` (lines 413-424):
`next_refresh` starts at 300; a successful update returns `None` (falsy,
skipped); a `ServerTimeoutError` or `TooManyRedirects` result re-sets
`next_refresh` to `60 + random.randint(0, 30)` (the draw at result index
`i` is modelled by `jitter i`); any other exception only logs. -/
def nextRefresh5mLoop (jitter : Nat → Nat) :
    List (Option ApiError) → Nat → Nat → Nat
  | [], _, acc => acc
  | Option.none :: rest, i, acc => nextRefresh5mLoop jitter rest (i + 1) acc
  | Option.some e :: rest, i, acc =>
    if e = .serverTimeoutError ∨ e = .tooManyRedirects then
      nextRefresh5mLoop jitter rest (i + 1) (60 + jitter i)
    else nextRefresh5mLoop jitter rest (i + 1) acc

/-- Embedding of `IndegoHub.refresh_5m` (lines 401-427): the four update
coroutines are gathered with `return_exceptions=True`, so their exceptions
appear as `results` entries instead of propagating; the loop above picks
the delay and `async_call_later` installs the next run (the remover is
stored).  Returns the hub with the remover set and the scheduled delay in
seconds. -/
def refresh5m (results : List (Option ApiError)) (jitter : Nat → Nat)
    (h : Hub) : Hub × Nat :=
  let delay := nextRefresh5mLoop jitter results 0 300
  ({ h with refresh5mRemover := true }, delay)

/-- Embedding of `IndegoHub.refresh_60m` (lines 429-433): it awaits
`_update_updates_available()` with no exception handling — an exception
there (modelled by `err = some e`) propagates and the next run is never
scheduled; on success the remover for a run 3600 seconds later is
stored. -/
def refresh60m (err : Option ApiError) (h : Hub) : Except ApiError (Hub × Nat) :=
  match err with
  | Option.some e => .error e
  | Option.none => .ok ({ h with refresh60mRemover := true }, 3600)

/-- Outcome of an `await self.indego.login()` call. -/
inductive LoginOutcome where
  | success
  | clientResponseError
  | serverTimeoutError
  | tooManyRedirects
deriving DecidableEq, Repr

/-- The timeout-like login failures (line 250 / line 359). -/
def isLoginTimeout (r : LoginOutcome) : Prop :=
  r = .serverTimeoutError ∨ r = .tooManyRedirects

instance (r : LoginOutcome) : Decidable (isLoginTimeout r) := by
  unfold isLoginTimeout; infer_instance

/-- Embedding of the login attempt in `async_setup` (lines 244-253):
`none` means setup returns `False` (fatal auth error), `some retry` means
setup proceeds and passes `retry` to `async_schedule_updates`. -/
def asyncSetupLogin : LoginOutcome → Option Bool
  | .success => Option.some false
  | .clientResponseError => Option.none
  | .serverTimeoutError => Option.some true
  | .tooManyRedirects => Option.some true

/-- What `async_schedule_updates` (lines 341-349) registers to run on the
platform-started event. -/
inductive StartedListener where
  | loginRetry
  | initialUpdate
deriving DecidableEq, Repr

/-- Embedding of `async_schedule_updates`: with `retry_login` the started
event triggers `_login`, otherwise `_initial_update`. -/
def asyncScheduleUpdates (retryLogin : Bool) : StartedListener :=
  if retryLogin then .loginRetry else .initialUpdate

/-- What the `finally` block of `_login` (lines 362-366) schedules next. -/
inductive LoginNext where
  | callLaterLogin (delaySeconds : Nat)
  | scheduleInitialUpdate
deriving DecidableEq, Repr

/-- Embedding of `IndegoHub._login` (lines 351-366): a timeout-like error
sets `retry_login`, so the `finally` block schedules another `_login`
60 seconds later; success and `ClientResponseError` both leave
`retry_login` false, so no further login attempt is scheduled and the
initial update task is created instead. -/
def loginMethod : LoginOutcome → LoginNext
  | .success => .scheduleInitialUpdate
  | .clientResponseError => .scheduleInitialUpdate
  | .serverTimeoutError => .callLaterLogin 60
  | .tooManyRedirects => .callLaterLogin 60

/-- Modelled from the spec: the `const.py` service-name constant for the
send-command service (`const.py` is not under `src`; only distinctness of
the two names is relied on). -/
def SERVICE_NAME_COMMAND : String := "command"

/-- Modelled from the spec: the `const.py` service-name constant for the
smart-mowing service. -/
def SERVICE_NAME_SMARTMOW : String := "smartmowing"

/-- Modelled from the spec: the `const.py` key under which the send-command
service call carries its command string. -/
def CONF_SEND_COMMAND : String := "command"

/-- Modelled from the spec: the `const.py` key under which the smart-mowing
service call carries its mode string. -/
def CONF_SMARTMOWING : String := "enable"

/-- Modelled from the spec: the `const.py` default used by
`call.data.get(..., DEFAULT_NAME_COMMANDS)` when the key is absent. -/
def DEFAULT_NAME_COMMANDS : String := ""

/-- A service schema of the shape `vol.Schema({vol.Required(key): cv.string})`:
one required key whose value must be a string. -/
structure ServiceSchema where
  requiredKey : String
deriving DecidableEq, Repr

/-- Embedding of `SERVICE_SCHEMA_COMMAND` (line 88). -/
def SERVICE_SCHEMA_COMMAND : ServiceSchema := ⟨CONF_SEND_COMMAND⟩

/-- Embedding of `SERVICE_SCHEMA_SMARTMOWING` (line 90). -/
def SERVICE_SCHEMA_SMARTMOWING : ServiceSchema := ⟨CONF_SMARTMOWING⟩

/-- Modelled from the spec: voluptuous validation of such a schema (the
voluptuous library is outside the repository).  A call-data dictionary is
accepted exactly when its single required key is present with a string
value and no other keys appear. -/
def validateSchema (sch : ServiceSchema) (data : List (String × PyVal)) : Bool :=
  (data.any fun p =>
    p.1 == sch.requiredKey &&
      match p.2 with | PyVal.str _ => true | _ => false) &&
    (data.all fun p => p.1 == sch.requiredKey)

/-- Python `call.data.get(key, default)` restricted to string values, as
both handlers use it after schema validation guarantees a string. -/
def dataGetStr (data : List (String × PyVal)) (k dflt : String) : String :=
  match data.find? (fun p => p.1 = k) with
  | Option.some (_, PyVal.str s) => s
  | _ => dflt

/-- Embedding of the `async_send_command` handler (lines 259-264): read the
command string, forward it to `put_command`, then refresh the mower state
via `_update_state` (a long-poll `update_state` client call).  Returned is
the sequence of client calls the handler makes. -/
def asyncSendCommand (data : List (String × PyVal)) : List ClientCall :=
  let name := dataGetStr data CONF_SEND_COMMAND DEFAULT_NAME_COMMANDS
  [ClientCall.putCommand name, ClientCall.updateStateCall true 300]

/-- Embedding of the `async_send_smartmowing` handler (lines 266-271): read
the mode string, forward it to `put_mow_mode`, then refresh the generic
data. -/
def asyncSendSmartmowing (data : List (String × PyVal)) : List ClientCall :=
  let name := dataGetStr data CONF_SMARTMOWING DEFAULT_NAME_COMMANDS
  [ClientCall.putMowMode name, ClientCall.updateGenericDataCall]

/-- A registered service: its name, its handler (as the client calls it
performs on given call data) and its schema. -/
structure ServiceReg where
  name : String
  handler : List (String × PyVal) → List ClientCall
  schema : ServiceSchema

/-- Embedding of the two `hass.services.async_register` calls of
`async_setup` (lines 273-281): exactly these two services are
registered. -/
def registeredServices : List ServiceReg :=
  [⟨SERVICE_NAME_COMMAND, asyncSendCommand, SERVICE_SCHEMA_COMMAND⟩,
   ⟨SERVICE_NAME_SMARTMOW, asyncSendSmartmowing, SERVICE_SCHEMA_SMARTMOWING⟩]

/-- Modelled from the spec: the `const.py` entity-key constants (distinct
identifier strings; their literal values are not in `src`). -/
def ENTITY_ONLINE : String := "online"

/-- Modelled from the spec: entity key for the update-available binary
sensor. -/
def ENTITY_UPDATE_AVAILABLE : String := "update_available"

/-- Modelled from the spec: entity key for the alert binary sensor. -/
def ENTITY_ALERT : String := "alert"

/-- Modelled from the spec: entity key for the mower state sensor. -/
def ENTITY_MOWER_STATE : String := "mower_state"

/-- Modelled from the spec: entity key for the detailed mower state
sensor. -/
def ENTITY_MOWER_STATE_DETAIL : String := "mower_state_detail"

/-- Modelled from the spec: entity key for the battery sensor. -/
def ENTITY_BATTERY : String := "battery_percentage"

/-- Modelled from the spec: entity key for the lawn-mowed sensor. -/
def ENTITY_LAWN_MOWED : String := "lawn_mowed"

/-- Modelled from the spec: entity key for the last-completed-mow
sensor. -/
def ENTITY_LAST_COMPLETED : String := "last_completed"

/-- Modelled from the spec: entity key for the next-mow sensor. -/
def ENTITY_NEXT_MOW : String := "next_mow"

/-- Modelled from the spec: entity key for the mowing-mode sensor. -/
def ENTITY_MOWING_MODE : String := "mowing_mode"

/-- Modelled from the spec: entity key for the total-runtime sensor. -/
def ENTITY_RUNTIME : String := "runtime"

/-- Modelled from the spec: entity key for the mower-alert sensor. -/
def ENTITY_MOWER_ALERT : String := "mower_alert"

/-- The two entity platform types of `const.py`. -/
inductive EntityType where
  | sensorType
  | binarySensorType
deriving DecidableEq, Repr

/-- An icon specification in `entity_definitions`: either a literal icon
string or one of the two icon-choosing functions. -/
inductive IconSpec where
  | static (icon : String)
  | funcBattery
  | funcMowerAlert
deriving DecidableEq, Repr

/-- One row of `entity_definitions`: platform type, display name, icon,
device class, unit of measurement (absent for binary sensors) and the list
of attribute keys. -/
structure EntityDef where
  defType : EntityType
  defName : String
  icon : IconSpec
  deviceClass : Option String
  unit : Option String
  attrs : List String
deriving DecidableEq, Repr

/-- Embedding of the `entity_definitions` table (lines 111-228), in
dictionary order.  Device-class values are the framework constants
(`connectivity`, `problem`, `battery`, `timestamp`). -/
def entityDefinitions : List (String × EntityDef) :=
  [(ENTITY_ONLINE,
    ⟨.binarySensorType, "online", .static "mdi:cloud-check",
     Option.some "connectivity", Option.none, []⟩),
   (ENTITY_UPDATE_AVAILABLE,
    ⟨.binarySensorType, "update available", .static "mdi:chip",
     Option.none, Option.none, []⟩),
   (ENTITY_ALERT,
    ⟨.binarySensorType, "alert", .funcMowerAlert,
     Option.some "problem", Option.none, ["alerts_count", "alert_details"]⟩),
   (ENTITY_MOWER_STATE,
    ⟨.sensorType, "mower state", .static "mdi:robot",
     Option.none, Option.none, ["last_updated", "model", "serial", "firmware"]⟩),
   (ENTITY_MOWER_STATE_DETAIL,
    ⟨.sensorType, "mower state detail", .static "mdi:robot",
     Option.none, Option.none,
     ["last_updated", "state_number", "state_description", "model_number"]⟩),
   (ENTITY_BATTERY,
    ⟨.sensorType, "battery %", .funcBattery,
     Option.some "battery", Option.some "%",
     ["last_updated", "voltage_V", "discharge_Ah", "cycles",
      "battery_temp_" ++ TEMP_CELSIUS, "ambient_temp_" ++ TEMP_CELSIUS]⟩),
   (ENTITY_LAWN_MOWED,
    ⟨.sensorType, "lawn mowed", .static "mdi:percent",
     Option.none, Option.none,
     ["last_updated", "last_completed_mow", "next_mow",
      "last_session_operation_min", "last_session_cut_min",
      "last_session_charge_min"]⟩),
   (ENTITY_LAST_COMPLETED,
    ⟨.sensorType, "last completed", .static "mdi:cash-100",
     Option.some "timestamp", Option.some "ISO8601", []⟩),
   (ENTITY_NEXT_MOW,
    ⟨.sensorType, "next mow", .static "mdi:chevron-right",
     Option.some "timestamp", Option.some "ISO8601", []⟩),
   (ENTITY_MOWING_MODE,
    ⟨.sensorType, "mowing mode", .static "mdi:alpha-m-circle-outline",
     Option.none, Option.none, []⟩),
   (ENTITY_RUNTIME,
    ⟨.sensorType, "runtime total", .static "mdi:information-outline",
     Option.none, Option.some "h",
     ["total_operation_time_h", "total_mowing_time_h",
      "total_charging_time_h"]⟩),
   (ENTITY_MOWER_ALERT,
    ⟨.sensorType, "mower alert", .funcMowerAlert,
     Option.none, Option.none, []⟩)]

/-- Modelled from the spec: the constructor arguments of `IndegoSensor` and
`IndegoBinarySensor` (`sensor.py` / `binary_sensor.py` are not under
`src`), captured verbatim as a record of what `create_entities` passes. -/
inductive CreatedEntity where
  | sensorEntity (serial uid displayName : String) (icon : IconSpec)
      (deviceClass : Option String) (unit : Option String)
      (attrs : List String)
  | binarySensorEntity (serial uid displayName : String) (icon : IconSpec)
      (deviceClass : Option String) (attrs : List String)
deriving DecidableEq, Repr

/-- Embedding of `IndegoHub.create_entities` (lines 317-339): iterate the
definition table in order; a sensor-typed row constructs an `IndegoSensor`,
a binary-sensor-typed row an `IndegoBinarySensor`, with the unique id
`indego_{serial}_{entity_key}` and the display name
`{mower_name} {definition name}`. -/
def createEntities (serial mowerName : String) : List (String × CreatedEntity) :=
  entityDefinitions.foldl
    (fun acc p =>
      match p with
      | (key, d) =>
        match d.defType with
        | .sensorType =>
          acc ++ [(key, CreatedEntity.sensorEntity serial
            ("indego_" ++ serial ++ "_" ++ key)
            (mowerName ++ " " ++ d.defName)
            d.icon d.deviceClass d.unit d.attrs)]
        | .binarySensorType =>
          acc ++ [(key, CreatedEntity.binarySensorEntity serial
            ("indego_" ++ serial ++ "_" ++ key)
            (mowerName ++ " " ++ d.defName)
            d.icon d.deviceClass d.attrs)]) []

/-- A sample client environment used by witness instantiations. -/
def sampleEnv : Env :=
  ⟨514, true, "Mowing", "mowing random", PyVal.int 42, PyVal.int 5,
   PyVal.int 4, PyVal.int 1, PyVal.int 100, PyVal.int 80, PyVal.int 20,
   PyVal.int 77, PyVal.int 36, PyVal.int 1, PyVal.int 10, PyVal.int 30,
   PyVal.int 21, 1700⟩

/-! Helper lemmas about the embedded methods. -/

theorem updateStateMethod_calls_eq (env : Env) (sd : Bool) (h : Hub) :
    (updateStateMethod env sd h).2 = [ClientCall.updateStateCall true 300] := by
  unfold updateStateMethod
  dsimp only
  split <;> rfl

theorem updateStateMethod_shutdown_eq (env : Env) (sd : Bool) (h : Hub) :
    (updateStateMethod env sd h).1.shutdown = (h.shutdown || sd) := by
  unfold updateStateMethod
  dsimp only
  split <;> rfl

theorem updateStateMethod_online_eq (env : Env) (sd : Bool) (h : Hub) :
    (updateStateMethod env sd h).1.entities.online = h.entities.online := by
  unfold updateStateMethod
  dsimp only
  split <;> rfl

theorem updateStateMethod_battery_eq (env : Env) (sd : Bool) (h : Hub) :
    (updateStateMethod env sd h).1.entities.battery = h.entities.battery := by
  unfold updateStateMethod
  dsimp only
  split <;> rfl

theorem updateStateMethod_entities_of_shutdown (env : Env) (sd : Bool) (h : Hub)
    (hs : (h.shutdown || sd) = true) :
    (updateStateMethod env sd h).1.entities = h.entities := by
  unfold updateStateMethod
  dsimp only
  rw [if_pos hs]

/-- Claim C7: every state refresh performed by the Hub is a long-poll
refresh — `_update_state` always calls the client's `update_state` with
`longpoll` set to true and a long-poll timeout of 300 seconds, and every
iteration of the state-refresh loop starts with exactly that call. -/
theorem stateRefreshAlwaysLongpoll (env : Env) (sd sd2 : Bool) (h : Hub) :
    (updateStateMethod env sd h).2 = [ClientCall.updateStateCall true 300] ∧
    (asyncRefreshState env sd sd2 h).calls.head? =
      Option.some (ClientCall.updateStateCall true 300) := by
  refine ⟨updateStateMethod_calls_eq env sd h, ?_⟩
  unfold asyncRefreshState
  dsimp only
  split
  · rw [updateStateMethod_calls_eq]; rfl
  · split <;> rw [updateStateMethod_calls_eq] <;> rfl

/-- Claim C1: in a completed state-refresh iteration without a shutdown
signal, the operating data is refreshed if and only if the mower's state
number is in [500, 799] or is 257 or 266 or the client reports the mower
online; when it is refreshed the online and battery entities take the
client's values, and otherwise the two operating-data entities are left
exactly as they were. -/
theorem operatingDataIffActiveOrOnline (env : Env) (h : Hub)
    (hs : h.shutdown = false) :
    (ClientCall.updateOperatingDataCall ∈ (asyncRefreshState env false false h).calls
      ↔ operatingDataCond env) ∧
    (operatingDataCond env →
      (asyncRefreshState env false false h).hub.entities.online.state =
        PyVal.bool env.online ∧
      (asyncRefreshState env false false h).hub.entities.battery.state =
        env.batteryPercent) ∧
    (¬ operatingDataCond env →
      (asyncRefreshState env false false h).hub.entities.online =
        h.entities.online ∧
      (asyncRefreshState env false false h).hub.entities.battery =
        h.entities.battery) := by
  have hsd : (updateStateMethod env false h).1.shutdown = false := by
    rw [updateStateMethod_shutdown_eq, hs, Bool.false_or]
  by_cases hc : operatingDataCond env <;>
    simp [asyncRefreshState, hsd, hc, updateOperatingDataMethod,
      updateStateMethod_calls_eq, updateStateMethod_online_eq,
      updateStateMethod_battery_eq]

/-- Witness for claim C1 at a concrete environment (state number 514) and
the freshly initialized hub. -/
theorem operatingDataIffActiveOrOnline_witness :
    Hub.init.shutdown = false ∧
    (ClientCall.updateOperatingDataCall ∈
        (asyncRefreshState sampleEnv false false Hub.init).calls ↔
      operatingDataCond sampleEnv) ∧
    (asyncRefreshState sampleEnv false false Hub.init).calls =
      [ClientCall.updateStateCall true 300,
       ClientCall.updateOperatingDataCall] :=
  ⟨rfl, (operatingDataIffActiveOrOnline sampleEnv Hub.init rfl).1, by decide⟩

theorem nextRefresh5mLoop_noTimeout (jitter : Nat → Nat) :
    ∀ (l : List (Option ApiError)) (i acc : Nat),
      l.any isTimeoutResult = false →
      nextRefresh5mLoop jitter l i acc = acc := by
  intro l
  induction l with
  | nil => intro i acc _; rfl
  | cons r rest ih =>
    intro i acc hl
    simp only [List.any_cons, Bool.or_eq_false_iff] at hl
    cases r with
    | none =>
      show nextRefresh5mLoop jitter rest (i + 1) acc = acc
      exact ih (i + 1) acc hl.2
    | some e =>
      have hne : ¬(e = ApiError.serverTimeoutError ∨ e = ApiError.tooManyRedirects) := by
        intro hor
        rcases hor with he | he <;> rw [he] at hl <;>
          simp [isTimeoutResult] at hl
      show (if e = ApiError.serverTimeoutError ∨ e = ApiError.tooManyRedirects
        then nextRefresh5mLoop jitter rest (i + 1) (60 + jitter i)
        else nextRefresh5mLoop jitter rest (i + 1) acc) = acc
      rw [if_neg hne]
      exact ih (i + 1) acc hl.2

theorem nextRefresh5mLoop_bounded (jitter : Nat → Nat)
    (hj : ∀ i, jitter i ≤ 30) :
    ∀ (l : List (Option ApiError)) (i acc : Nat),
      60 ≤ acc → acc ≤ 90 →
      60 ≤ nextRefresh5mLoop jitter l i acc ∧
        nextRefresh5mLoop jitter l i acc ≤ 90 := by
  intro l
  induction l with
  | nil => intro i acc h1 h2; exact ⟨h1, h2⟩
  | cons r rest ih =>
    intro i acc h1 h2
    cases r with
    | none =>
      show 60 ≤ nextRefresh5mLoop jitter rest (i + 1) acc ∧
        nextRefresh5mLoop jitter rest (i + 1) acc ≤ 90
      exact ih (i + 1) acc h1 h2
    | some e =>
      show 60 ≤ (if e = ApiError.serverTimeoutError ∨ e = ApiError.tooManyRedirects
          then nextRefresh5mLoop jitter rest (i + 1) (60 + jitter i)
          else nextRefresh5mLoop jitter rest (i + 1) acc) ∧
        (if e = ApiError.serverTimeoutError ∨ e = ApiError.tooManyRedirects
          then nextRefresh5mLoop jitter rest (i + 1) (60 + jitter i)
          else nextRefresh5mLoop jitter rest (i + 1) acc) ≤ 90
      by_cases he : e = ApiError.serverTimeoutError ∨ e = ApiError.tooManyRedirects
      · rw [if_pos he]
        have := hj i
        exact ih (i + 1) (60 + jitter i) (by omega) (by omega)
      · rw [if_neg he]
        exact ih (i + 1) acc h1 h2

theorem nextRefresh5mLoop_timeout (jitter : Nat → Nat)
    (hj : ∀ i, jitter i ≤ 30) :
    ∀ (l : List (Option ApiError)) (i acc : Nat),
      l.any isTimeoutResult = true →
      60 ≤ nextRefresh5mLoop jitter l i acc ∧
        nextRefresh5mLoop jitter l i acc ≤ 90 := by
  intro l
  induction l with
  | nil => intro i acc hl; simp at hl
  | cons r rest ih =>
    intro i acc hl
    simp only [List.any_cons, Bool.or_eq_true] at hl
    cases r with
    | none =>
      show 60 ≤ nextRefresh5mLoop jitter rest (i + 1) acc ∧
        nextRefresh5mLoop jitter rest (i + 1) acc ≤ 90
      rcases hl with hl | hl
      · simp [isTimeoutResult] at hl
      · exact ih (i + 1) acc hl
    | some e =>
      show 60 ≤ (if e = ApiError.serverTimeoutError ∨ e = ApiError.tooManyRedirects
          then nextRefresh5mLoop jitter rest (i + 1) (60 + jitter i)
          else nextRefresh5mLoop jitter rest (i + 1) acc) ∧
        (if e = ApiError.serverTimeoutError ∨ e = ApiError.tooManyRedirects
          then nextRefresh5mLoop jitter rest (i + 1) (60 + jitter i)
          else nextRefresh5mLoop jitter rest (i + 1) acc) ≤ 90
      by_cases he : e = ApiError.serverTimeoutError ∨ e = ApiError.tooManyRedirects
      · rw [if_pos he]
        have := hj i
        exact nextRefresh5mLoop_bounded jitter hj rest (i + 1) (60 + jitter i)
          (by omega) (by omega)
      · rw [if_neg he]
        rcases hl with hl | hl
        · exfalso
          cases e <;> simp [isTimeoutResult] at hl <;> simp at he
        · exact ih (i + 1) acc hl

/-- Claim C4: no exception from the four gathered updates escapes
`refresh_5m` (they arrive as result values and the loop handles every
one), a next run is always scheduled, and the scheduled delay is between
60 and 90 seconds when some result is a `ServerTimeoutError` or
`TooManyRedirects` (the 30-second random jitter is bounded), and exactly
300 seconds otherwise. -/
theorem refresh5mHandlesErrorsAndBacksOff (results : List (Option ApiError))
    (jitter : Nat → Nat) (h : Hub) (hj : ∀ i, jitter i ≤ 30) :
    (refresh5m results jitter h).1.refresh5mRemover = true ∧
    (results.any isTimeoutResult = true →
      60 ≤ (refresh5m results jitter h).2 ∧
        (refresh5m results jitter h).2 ≤ 90) ∧
    (results.any isTimeoutResult = false →
      (refresh5m results jitter h).2 = 300) :=
  ⟨rfl,
   fun ht => nextRefresh5mLoop_timeout jitter hj results 0 300 ht,
   fun hf => nextRefresh5mLoop_noTimeout jitter results 0 300 hf⟩

/-- Witness for claim C4: one timed-out result among four gives a delay of
60 + 13 = 73 seconds, inside [60, 90]; an error-free run gives 300. -/
theorem refresh5mHandlesErrorsAndBacksOff_witness :
    ([Option.none, Option.some ApiError.clientResponseError,
      Option.some ApiError.serverTimeoutError,
      Option.none].any isTimeoutResult = true) ∧
    60 ≤ (refresh5m [Option.none, Option.some ApiError.clientResponseError,
      Option.some ApiError.serverTimeoutError, Option.none]
      (fun _ => 13) Hub.init).2 ∧
    (refresh5m [Option.none, Option.some ApiError.clientResponseError,
      Option.some ApiError.serverTimeoutError, Option.none]
      (fun _ => 13) Hub.init).2 ≤ 90 ∧
    (refresh5m [Option.none, Option.some ApiError.clientResponseError,
      Option.some ApiError.serverTimeoutError, Option.none]
      (fun _ => 13) Hub.init).2 = 73 := by
  have happ := refresh5mHandlesErrorsAndBacksOff
    [Option.none, Option.some ApiError.clientResponseError,
     Option.some ApiError.serverTimeoutError, Option.none]
    (fun _ => 13) Hub.init (fun _ => (by decide : (13 : Nat) ≤ 30))
  exact ⟨by decide, (happ.2.1 (by decide)).1, (happ.2.1 (by decide)).2, by decide⟩

/-- Counterexample to claim C5 as stated: with a state-refresh task whose
bare `await` (line 381) re-raises after `cancel()`, `async_shutdown` exits
before lines 382-386, so neither remover is invoked and the client is not
closed; and a shutdown signalled during the `_update_operating_data` await
(line 396, here at state number 514) still reaches line 397, which
re-creates the state-refresh task after the flag is already set. -/
theorem shutdownUncleanCounterexample :
    (asyncShutdown true ⟨Entities.init, false, true, true, true⟩).2.remover5mCalled
      = false ∧
    (asyncShutdown true ⟨Entities.init, false, true, true, true⟩).2.remover60mCalled
      = false ∧
    (asyncShutdown true ⟨Entities.init, false, true, true, true⟩).2.clientClosed
      = false ∧
    (asyncShutdown true ⟨Entities.init, false, true, true, true⟩).2.raised
      = true ∧
    (asyncRefreshState sampleEnv false true Hub.init).hub.shutdown = true ∧
    (asyncRefreshState sampleEnv false true Hub.init).rescheduled = true := by
  refine ⟨rfl, rfl, rfl, rfl, ?_, ?_⟩ <;> rfl

/-- Claim C5 (amended): on the shutdown signal the Hub sets the shutdown
flag and cancels the running state-refresh task; when the bare await of the
cancelled task does not re-raise, both scheduled batch callbacks are
removed if present and the client is closed, but when it re-raises a
cancellation or stored exception `async_shutdown` exits before removing
the callbacks or closing the client.  A shutdown flag in force when a
state update completes stops that iteration from scheduling another one
and leaves every entity untouched; a shutdown signalled during the
operating-data await, however, still re-creates the task once (the next
iteration then stops). -/
theorem shutdownTeardownAmended :
    (∀ (taskRaises : Bool) (h : Hub),
      (asyncShutdown taskRaises h).1.shutdown = true ∧
      (h.refreshStateTask = true →
        (asyncShutdown taskRaises h).2.taskCancelled = true)) ∧
    (∀ h : Hub,
      (asyncShutdown false h).2.raised = false ∧
      (h.refresh5mRemover = true →
        (asyncShutdown false h).2.remover5mCalled = true) ∧
      (h.refresh60mRemover = true →
        (asyncShutdown false h).2.remover60mCalled = true) ∧
      (asyncShutdown false h).2.clientClosed = true) ∧
    (∀ h : Hub, h.refreshStateTask = true →
      (asyncShutdown true h).2.raised = true ∧
      (asyncShutdown true h).2.remover5mCalled = false ∧
      (asyncShutdown true h).2.remover60mCalled = false ∧
      (asyncShutdown true h).2.clientClosed = false) ∧
    (∀ (env : Env) (sd sd2 : Bool) (h : Hub), (h.shutdown || sd) = true →
      (asyncRefreshState env sd sd2 h).rescheduled = false) ∧
    (∀ (env : Env) (sd : Bool) (h : Hub), (h.shutdown || sd) = true →
      (updateStateMethod env sd h).1.entities = h.entities) ∧
    (∀ (env : Env) (h : Hub), h.shutdown = false → operatingDataCond env →
      (asyncRefreshState env false true h).hub.shutdown = true ∧
      (asyncRefreshState env false true h).rescheduled = true) := by
  refine ⟨?_, ?_, ?_, ?_, ?_, ?_⟩
  · intro taskRaises h
    cases hx : h.refreshStateTask <;>
      cases taskRaises <;> simp [asyncShutdown, hx]
  · intro h
    cases hx : h.refreshStateTask <;> simp [asyncShutdown, hx]
  · intro h hx
    simp [asyncShutdown, hx]
  · intro env sd sd2 h hs
    have hsd : (updateStateMethod env sd h).1.shutdown = true := by
      rw [updateStateMethod_shutdown_eq, hs]
    unfold asyncRefreshState
    dsimp only
    rw [if_pos hsd]
  · intro env sd h hs
    exact updateStateMethod_entities_of_shutdown env sd h hs
  · intro env h hs hc
    have hsd : (updateStateMethod env false h).1.shutdown = false := by
      rw [updateStateMethod_shutdown_eq, hs, Bool.false_or]
    constructor <;>
      simp [asyncRefreshState, hsd, hc, updateOperatingDataMethod]

/-- Witness for claim C5 at concrete hubs: a clean shutdown with a task and
both removers present, a re-raising shutdown of the same hub, an iteration
entered after shutdown, a state update overlapping the shutdown signal, and
a shutdown arriving during the operating-data await of `sampleEnv`. -/
theorem shutdownTeardownAmended_witness :
    (asyncShutdown false ⟨Entities.init, false, true, true, true⟩).2.taskCancelled
      = true ∧
    (asyncShutdown false ⟨Entities.init, false, true, true, true⟩).2.remover5mCalled
      = true ∧
    (asyncShutdown false ⟨Entities.init, false, true, true, true⟩).2.clientClosed
      = true ∧
    (asyncShutdown true ⟨Entities.init, false, true, true, true⟩).2.clientClosed
      = false ∧
    (asyncRefreshState sampleEnv false false
      ⟨Entities.init, true, false, false, false⟩).rescheduled = false ∧
    (updateStateMethod sampleEnv true Hub.init).1.entities =
      Hub.init.entities ∧
    (asyncRefreshState sampleEnv false true Hub.init).rescheduled = true :=
  ⟨(shutdownTeardownAmended.1 false ⟨Entities.init, false, true, true, true⟩).2 rfl,
   (shutdownTeardownAmended.2.1 ⟨Entities.init, false, true, true, true⟩).2.1 rfl,
   (shutdownTeardownAmended.2.1 ⟨Entities.init, false, true, true, true⟩).2.2.2,
   (shutdownTeardownAmended.2.2.1 ⟨Entities.init, false, true, true, true⟩ rfl).2.2.2,
   shutdownTeardownAmended.2.2.2.1 sampleEnv false false
     ⟨Entities.init, true, false, false, false⟩ rfl,
   shutdownTeardownAmended.2.2.2.2.1 sampleEnv true Hub.init rfl,
   (shutdownTeardownAmended.2.2.2.2.2 sampleEnv Hub.init rfl (by decide)).2⟩

/-- Counterexample to claim C3 as stated: a run of the 60-minute loop whose
update raises (here a `ServerTimeoutError`) exits with the exception before
reaching `async_call_later`, so no next run is scheduled 3600 seconds
later. -/
theorem refresh60mErrorNoReschedule :
    refresh60m (Option.some ApiError.serverTimeoutError) Hub.init =
      Except.error ApiError.serverTimeoutError ∧
    Hub.init.refresh60mRemover = false :=
  ⟨rfl, rfl⟩

/-- Claim C3 (amended): the long-poll state loop re-creates itself
immediately after each completed iteration while not shut down; the
5-minute loop schedules its next run 300 seconds later when no error
occurred; the 60-minute loop schedules its next run 3600 seconds later when
its update completes without an exception (an exception propagates and no
next run is scheduled). -/
theorem threeRefreshLoops :
    (∀ (env : Env) (h : Hub), h.shutdown = false →
      (asyncRefreshState env false false h).rescheduled = true) ∧
    (∀ (results : List (Option ApiError)) (jitter : Nat → Nat) (h : Hub),
      (∀ r ∈ results, r = Option.none) →
      refresh5m results jitter h =
        ({ h with refresh5mRemover := true }, 300)) ∧
    (∀ h : Hub, refresh60m Option.none h =
      Except.ok ({ h with refresh60mRemover := true }, 3600)) ∧
    (∀ (e : ApiError) (h : Hub),
      refresh60m (Option.some e) h = Except.error e) := by
  refine ⟨?_, ?_, fun h => rfl, fun e h => rfl⟩
  · intro env h hs
    have hsd : (updateStateMethod env false h).1.shutdown = false := by
      rw [updateStateMethod_shutdown_eq, hs, Bool.false_or]
    by_cases hc : operatingDataCond env <;>
      simp [asyncRefreshState, hsd, hc]
  · intro results jitter h hall
    have hany : results.any isTimeoutResult = false := by
      rw [List.any_eq_false]
      intro r hr
      rw [hall r hr]
      simp [isTimeoutResult]
    unfold refresh5m
    dsimp only
    rw [nextRefresh5mLoop_noTimeout jitter results 0 300 hany]

/-- Witness for claim C3: the state loop reschedules from the initial hub,
an error-free 5-minute run schedules in 300 seconds, a clean 60-minute run
in 3600 seconds. -/
theorem threeRefreshLoops_witness :
    (asyncRefreshState sampleEnv false false Hub.init).rescheduled = true ∧
    refresh5m [Option.none, Option.none, Option.none, Option.none]
      (fun _ => 0) Hub.init =
      ({ Hub.init with refresh5mRemover := true }, 300) ∧
    refresh60m Option.none Hub.init =
      Except.ok ({ Hub.init with refresh60mRemover := true }, 3600) :=
  ⟨threeRefreshLoops.1 sampleEnv Hub.init rfl,
   threeRefreshLoops.2.1 [Option.none, Option.none, Option.none, Option.none]
     (fun _ => 0) Hub.init (by decide),
   threeRefreshLoops.2.2.1 Hub.init⟩

/-- Claim C2: a timeout-like login failure leads to a later retry — during
setup it makes setup proceed with the retry flag so the started event
triggers `_login`, and inside `_login` it schedules another `_login` 60
seconds later — while an authentication failure (`ClientResponseError`) is
fatal: setup returns `False`, and `_login` schedules no further login
attempt. -/
theorem loginTimeoutRetriesAuthFatal :
    (∀ r : LoginOutcome, isLoginTimeout r →
      asyncSetupLogin r = Option.some true ∧
      asyncScheduleUpdates true = StartedListener.loginRetry ∧
      loginMethod r = LoginNext.callLaterLogin 60) ∧
    asyncSetupLogin LoginOutcome.clientResponseError = Option.none ∧
    (∀ d : Nat, loginMethod LoginOutcome.clientResponseError ≠
      LoginNext.callLaterLogin d) := by
  refine ⟨?_, rfl, ?_⟩
  · intro r hr
    rcases hr with he | he <;> rw [he] <;> exact ⟨rfl, rfl, rfl⟩
  · intro d hcontra
    simp [loginMethod] at hcontra

/-- Witness for claim C2 at the concrete outcomes `ServerTimeoutError` and
`ClientResponseError`. -/
theorem loginTimeoutRetriesAuthFatal_witness :
    isLoginTimeout LoginOutcome.serverTimeoutError ∧
    asyncSetupLogin LoginOutcome.serverTimeoutError = Option.some true ∧
    loginMethod LoginOutcome.serverTimeoutError =
      LoginNext.callLaterLogin 60 ∧
    loginMethod LoginOutcome.clientResponseError ≠
      LoginNext.callLaterLogin 60 :=
  ⟨Or.inl rfl,
   (loginTimeoutRetriesAuthFatal.1 LoginOutcome.serverTimeoutError
     (Or.inl rfl)).1,
   (loginTimeoutRetriesAuthFatal.1 LoginOutcome.serverTimeoutError
     (Or.inl rfl)).2.2,
   loginTimeoutRetriesAuthFatal.2.2 60⟩

/-- Claim C9: a truthy state that does not parse as an integer — the string
`STATE_ON` itself included — makes `FUNC_ICON_MOWER_ALERT` raise, because
`int(state)` is evaluated before the comparison with `STATE_ON`; a falsy
state yields the check icon, and an integer-parseable state yields the
alert icon exactly when the parsed value is positive. -/
theorem mowerAlertIconBehaviour :
    FUNC_ICON_MOWER_ALERT (PyVal.str STATE_ON) = Except.error () ∧
    (∀ v, truthy v = true → pyToInt v = Option.none →
      FUNC_ICON_MOWER_ALERT v = Except.error ()) ∧
    (∀ v, truthy v = false →
      FUNC_ICON_MOWER_ALERT v = Except.ok "mdi:check-circle-outline") ∧
    (∀ v n, pyToInt v = Option.some n →
      (FUNC_ICON_MOWER_ALERT v = Except.ok "mdi:alert-outline" ↔ 0 < n)) := by
  refine ⟨rfl, ?_, ?_, ?_⟩
  · intro v ht hp
    simp [FUNC_ICON_MOWER_ALERT, ht, hp]
  · intro v hf
    simp [FUNC_ICON_MOWER_ALERT, hf]
  · intro v n hp
    cases v with
    | int m =>
      have hm : m = n := by
        have := hp
        simp [pyToInt] at this
        exact this
      subst hm
      by_cases h0 : m = 0
      · subst h0
        have hf : truthy (PyVal.int 0) = false := rfl
        simp [FUNC_ICON_MOWER_ALERT, hf]
      · have ht : truthy (PyVal.int m) = true := by
          simp [truthy]; exact h0
        simp only [FUNC_ICON_MOWER_ALERT, ht, if_true, pyToInt, pyEqStr]
        by_cases hpos : 0 < m <;> simp [hpos]
    | bool b =>
      cases b with
      | true =>
        have hn : n = 1 := by
          simp [pyToInt] at hp
          omega
        subst hn
        simp [FUNC_ICON_MOWER_ALERT, truthy, pyToInt, pyEqStr]
      | false =>
        have hn : n = 0 := by
          simp [pyToInt] at hp
          omega
        subst hn
        simp [FUNC_ICON_MOWER_ALERT, truthy]
    | str t =>
      by_cases ht0 : t = ""
      · subst ht0
        exact Option.noConfusion hp
      · have htr : truthy (PyVal.str t) = true := by
          simp [truthy]; exact ht0
        have hon : (t == "on") = false := by
          by_cases h2 : t = "on"
          · subst h2
            exact Option.noConfusion hp
          · simp [h2]
        simp only [FUNC_ICON_MOWER_ALERT, htr, if_true, hp, pyEqStr,
          STATE_ON, hon]
        by_cases hpos : 0 < n <;> simp [hpos]
    | none => exact Option.noConfusion hp
    | time t => exact Option.noConfusion hp

/-- Witness for claim C9 at the concrete states `"boom"` (truthy,
unparseable), `0` (falsy) and `5` (parseable and positive). -/
theorem mowerAlertIconBehaviour_witness :
    truthy (PyVal.str "boom") = true ∧
    pyToInt (PyVal.str "boom") = Option.none ∧
    FUNC_ICON_MOWER_ALERT (PyVal.str "boom") = Except.error () ∧
    truthy (PyVal.int 0) = false ∧
    FUNC_ICON_MOWER_ALERT (PyVal.int 0) = Except.ok "mdi:check-circle-outline" ∧
    (FUNC_ICON_MOWER_ALERT (PyVal.int 5) = Except.ok "mdi:alert-outline" ↔
      0 < (5 : Int)) :=
  ⟨rfl, rfl, mowerAlertIconBehaviour.2.1 (PyVal.str "boom") rfl rfl,
   rfl, mowerAlertIconBehaviour.2.2.1 (PyVal.int 0) rfl,
   mowerAlertIconBehaviour.2.2.2 (PyVal.int 5) 5 rfl⟩

/-- Counterexample to claim C10 as stated: the integer battery state 0 is
falsy in Python, so `FUNC_ICON_BATTERY` returns `"mdi:battery-50"` for it,
not `"mdi:battery-outline"`. -/
theorem batteryIconIntZeroCounterexample :
    FUNC_ICON_BATTERY (PyVal.int 0) = Except.ok "mdi:battery-50" ∧
    FUNC_ICON_BATTERY (PyVal.int 0) ≠ Except.ok "mdi:battery-outline" := by
  refine ⟨rfl, fun hcontra => ?_⟩
  exact absurd (Except.ok.inj hcontra) (by decide)

/-- Claim C10 (amended): for a truthy integer-parseable battery state the
icon is the empty-battery outline at 0 (reachable only through a truthy
representation of zero such as the string "0"), the full battery at 100,
and the value rounded down to a multiple of 10 for 1..99 (1..9 giving
"mdi:battery-0"); the integer state 0 itself is falsy and therefore yields
"mdi:battery-50", like every falsy state and the unknown sentinel. -/
theorem batteryIconBehaviourAmended :
    FUNC_ICON_BATTERY (PyVal.int 0) = Except.ok "mdi:battery-50" ∧
    FUNC_ICON_BATTERY (PyVal.str "0") = Except.ok "mdi:battery-outline" ∧
    FUNC_ICON_BATTERY (PyVal.int 100) = Except.ok "mdi:battery" ∧
    (∀ n : Int, 1 ≤ n → n ≤ 99 →
      FUNC_ICON_BATTERY (PyVal.int n) =
        Except.ok ("mdi:battery-" ++ toString (n - n % 10))) ∧
    (∀ n : Int, 1 ≤ n → n ≤ 9 →
      FUNC_ICON_BATTERY (PyVal.int n) = Except.ok "mdi:battery-0") ∧
    (∀ v, truthy v = false →
      FUNC_ICON_BATTERY v = Except.ok "mdi:battery-50") ∧
    FUNC_ICON_BATTERY (PyVal.str STATE_UNKNOWN) = Except.ok "mdi:battery-50" := by
  have hgen : ∀ n : Int, 1 ≤ n → n ≤ 99 →
      FUNC_ICON_BATTERY (PyVal.int n) =
        Except.ok ("mdi:battery-" ++ toString (n - n % 10)) := by
    intro n h1 h99
    have ht : truthy (PyVal.int n) = true := by
      simp [truthy]; omega
    have hne : pyEqStr (PyVal.int n) STATE_UNKNOWN = false := rfl
    simp only [FUNC_ICON_BATTERY, ht, hne, Bool.not_false, Bool.and_true,
      if_true, pyToInt]
    rw [if_neg (by omega : ¬n = 0), if_neg (by omega : ¬n = 100)]
  refine ⟨rfl, rfl, rfl, hgen, ?_, ?_, rfl⟩
  · intro n h1 h9
    have h10 : n - n % 10 = 0 := by omega
    rw [hgen n h1 (by omega), h10]
    rfl
  · intro v hf
    simp [FUNC_ICON_BATTERY, hf]

/-- Witness for claim C10 at the concrete battery states 57 (a mid-range
integer) and `None` (falsy). -/
theorem batteryIconBehaviourAmended_witness :
    FUNC_ICON_BATTERY (PyVal.int 57) =
      Except.ok ("mdi:battery-" ++ toString ((57 : Int) - 57 % 10)) ∧
    FUNC_ICON_BATTERY (PyVal.int 57) = Except.ok "mdi:battery-50" ∧
    FUNC_ICON_BATTERY (PyVal.int 7) = Except.ok "mdi:battery-0" ∧
    truthy PyVal.none = false ∧
    FUNC_ICON_BATTERY PyVal.none = Except.ok "mdi:battery-50" :=
  ⟨batteryIconBehaviourAmended.2.2.2.1 57 (by decide) (by decide),
   by rfl,
   batteryIconBehaviourAmended.2.2.2.2.1 7 (by decide) (by decide),
   rfl,
   batteryIconBehaviourAmended.2.2.2.2.2.1 PyVal.none rfl⟩

/-- Claim C6: setup registers exactly two services — the send-command
service forwards its string to `put_command` and then refreshes the mower
state, the smart-mowing service forwards its string to `put_mow_mode` and
then refreshes the generic data — and each schema requires its single
string argument (an empty call is rejected, a non-string value is
rejected, a string is accepted). -/
theorem twoServicesRegistered :
    registeredServices.length = 2 ∧
    registeredServices.map (fun s => s.name) =
      [SERVICE_NAME_COMMAND, SERVICE_NAME_SMARTMOW] ∧
    registeredServices.map (fun s => s.schema) =
      [SERVICE_SCHEMA_COMMAND, SERVICE_SCHEMA_SMARTMOWING] ∧
    registeredServices.map (fun s => s.handler) =
      [asyncSendCommand, asyncSendSmartmowing] ∧
    (∀ s, asyncSendCommand [(CONF_SEND_COMMAND, PyVal.str s)] =
      [ClientCall.putCommand s, ClientCall.updateStateCall true 300]) ∧
    (∀ s, asyncSendSmartmowing [(CONF_SMARTMOWING, PyVal.str s)] =
      [ClientCall.putMowMode s, ClientCall.updateGenericDataCall]) ∧
    (∀ s, validateSchema SERVICE_SCHEMA_COMMAND
      [(CONF_SEND_COMMAND, PyVal.str s)] = true) ∧
    validateSchema SERVICE_SCHEMA_COMMAND [] = false ∧
    (∀ v, validateSchema SERVICE_SCHEMA_COMMAND
        [(CONF_SEND_COMMAND, v)] = true → ∃ s, v = PyVal.str s) ∧
    (∀ s, validateSchema SERVICE_SCHEMA_SMARTMOWING
      [(CONF_SMARTMOWING, PyVal.str s)] = true) ∧
    validateSchema SERVICE_SCHEMA_SMARTMOWING [] = false := by
  refine ⟨rfl, rfl, rfl, rfl, fun s => rfl, fun s => rfl, fun s => rfl,
    rfl, ?_, fun s => rfl, rfl⟩
  intro v hv
  cases v with
  | str s => exact ⟨s, rfl⟩
  | int n => exact Bool.noConfusion hv
  | bool b => exact Bool.noConfusion hv
  | none => exact Bool.noConfusion hv
  | time t => exact Bool.noConfusion hv

/-- Witness for claim C6 at the concrete command "mow" and mode "true". -/
theorem twoServicesRegistered_witness :
    asyncSendCommand [(CONF_SEND_COMMAND, PyVal.str "mow")] =
      [ClientCall.putCommand "mow", ClientCall.updateStateCall true 300] ∧
    validateSchema SERVICE_SCHEMA_COMMAND
      [(CONF_SEND_COMMAND, PyVal.str "mow")] = true ∧
    (∃ s, PyVal.str "mow" = PyVal.str s) ∧
    asyncSendSmartmowing [(CONF_SMARTMOWING, PyVal.str "true")] =
      [ClientCall.putMowMode "true", ClientCall.updateGenericDataCall] :=
  ⟨twoServicesRegistered.2.2.2.2.1 "mow",
   twoServicesRegistered.2.2.2.2.2.2.1 "mow",
   twoServicesRegistered.2.2.2.2.2.2.2.2.1 (PyVal.str "mow") (by rfl),
   twoServicesRegistered.2.2.2.2.2.1 "true"⟩

/-- Claim C8: `create_entities` returns a table whose keys are exactly the
keys of `entity_definitions` (3 binary-sensor rows and 9 sensor rows); each
sensor row constructs a sensor entity and each binary-sensor row a
binary-sensor entity, with unique id `indego_{serial}_{key}`, the display
name `{mower name} {definition name}`, and the icon, device class, unit and
attribute list of its definition. -/
theorem createEntitiesTable (serial mowerName : String) :
    (createEntities serial mowerName).map Prod.fst =
      entityDefinitions.map Prod.fst ∧
    (entityDefinitions.filter
      (fun p => p.2.defType = EntityType.binarySensorType)).length = 3 ∧
    (entityDefinitions.filter
      (fun p => p.2.defType = EntityType.sensorType)).length = 9 ∧
    entityDefinitions.length = 12 ∧
    (∀ key d, (key, d) ∈ entityDefinitions →
      (d.defType = EntityType.sensorType →
        (key, CreatedEntity.sensorEntity serial
          ("indego_" ++ serial ++ "_" ++ key)
          (mowerName ++ " " ++ d.defName) d.icon d.deviceClass d.unit
          d.attrs) ∈ createEntities serial mowerName) ∧
      (d.defType = EntityType.binarySensorType →
        (key, CreatedEntity.binarySensorEntity serial
          ("indego_" ++ serial ++ "_" ++ key)
          (mowerName ++ " " ++ d.defName) d.icon d.deviceClass
          d.attrs) ∈ createEntities serial mowerName)) := by
  refine ⟨rfl, by decide, by decide, by decide, ?_⟩
  intro key d hmem
  fin_cases hmem <;>
    exact ⟨fun hty => by first
        | exact absurd hty (by decide)
        | simp [createEntities, entityDefinitions],
      fun hty => by first
        | exact absurd hty (by decide)
        | simp [createEntities, entityDefinitions]⟩

/-- Witness for claim C8 at the concrete serial "123" and mower name
"Indego": the online row is a binary-sensor definition and produces the
binary-sensor entity with unique id `indego_123_online`. -/
theorem createEntitiesTable_witness :
    (ENTITY_ONLINE,
      (⟨EntityType.binarySensorType, "online",
        IconSpec.static "mdi:cloud-check", Option.some "connectivity",
        Option.none, []⟩ : EntityDef)) ∈ entityDefinitions ∧
    (ENTITY_ONLINE, CreatedEntity.binarySensorEntity "123"
      ("indego_" ++ "123" ++ "_" ++ ENTITY_ONLINE) ("Indego" ++ " " ++ "online")
      (IconSpec.static "mdi:cloud-check") (Option.some "connectivity") [])
      ∈ createEntities "123" "Indego" :=
  ⟨by decide,
   ((createEntitiesTable "123" "Indego").2.2.2.2 ENTITY_ONLINE
     ⟨EntityType.binarySensorType, "online", IconSpec.static "mdi:cloud-check",
      Option.some "connectivity", Option.none, []⟩ (by decide)).2 rfl⟩

end Indego
